import Mathlib

/-!
Shallow embedding of the topo Kind reconciler
(`pkg/controller/topo/kind/reconciler.go`) from the onos-operator
repository, together with theorems settling the specification claims
about its reconciliation state machine.

The remote topology registry is modelled as a list of entry IDs with
per-call fault injection (a remote call may be forced to fail with a
classified error), matching the error taxonomy the reconciler
distinguishes via `status.FromError` / `errors.FromStatus` /
`errors.IsNotFound` / `errors.IsAlreadyExists`.
-/

/-- Classified outcome of a failed remote call, as seen by the
reconciler after `status.FromError` and `errors.FromStatus`:
`notFound`, `alreadyExists`, some other status error (`unknownErr`),
or an error that is not a gRPC status at all (`nonStatus`, the
`!ok` branch of `status.FromError`). -/
inductive RemoteErr
  | notFound
  | alreadyExists
  | unknownErr
  | nonStatus
deriving DecidableEq

/-- `status.FromError`: a `nonStatus` error yields `ok = false`
(modelled as `none`); any status error is passed through to
`errors.FromStatus`, which preserves its classification. -/
def statusFromError : RemoteErr → Option RemoteErr
  | RemoteErr.nonStatus => none
  | e => some e

/-- `errors.IsNotFound` on a classified error. -/
def IsNotFound : RemoteErr → Bool
  | RemoteErr.notFound => true
  | _ => false

/-- `errors.IsAlreadyExists` on a classified error. -/
def IsAlreadyExists : RemoteErr → Bool
  | RemoteErr.alreadyExists => true
  | _ => false

/-- `KindSpec.Attributes`: the attribute bag mirrored into the remote
registry (`kind.Spec.Attributes`). -/
structure KindSpec where
  Attributes : List (String × String)
deriving DecidableEq

/-- The `v1beta1.Kind` resource snapshot as the reconciler observes it:
name, namespace, deletion timestamp (presence only), finalizer list and
spec. -/
structure Kind where
  Name : String
  Namespace : String
  DeletionTimestamp : Option Nat
  Finalizers : List String
  Spec : KindSpec
deriving DecidableEq

/-- `const topoFinalizer = "topo"`. -/
def topoFinalizer : String := "topo"

/-- Modelled from the spec: `HasFinalizer` from the repository's
`pkg/controller/util/k8s` helpers (not under `src/`); §4.2 describes it
as a set-membership check over the resource's finalizer list. -/
def HasFinalizer (kind : Kind) (finalizer : String) : Bool :=
  kind.Finalizers.contains finalizer

/-- Modelled from the spec: `AddFinalizer` from
`pkg/controller/util/k8s` (not under `src/`); §4.2 describes it as an
idempotent insert (no-op if already present). -/
def AddFinalizer (kind : Kind) (finalizer : String) : Kind :=
  if kind.Finalizers.contains finalizer then kind
  else { kind with Finalizers := kind.Finalizers ++ [finalizer] }

/-- Modelled from the spec: `RemoveFinalizer` from
`pkg/controller/util/k8s` (not under `src/`); §4.2 describes it as an
idempotent delete (no-op if absent). -/
def RemoveFinalizer (kind : Kind) (finalizer : String) : Kind :=
  { kind with Finalizers := kind.Finalizers.filter (fun f => f ≠ finalizer) }

/-- The ID used in the remote `GetRequest`: `topo.ID(kind.Name)`. -/
def getRequestID (kind : Kind) : String := kind.Name

/-- The ID used in the remote `DeleteRequest`: `topo.ID(kind.Name)`. -/
def deleteRequestID (kind : Kind) : String := kind.Name

/-- The embedded `topo.Kind` payload of a `CreateRequest`. -/
structure TopoKind where
  Name : String
  Attributes : List (String × String)
deriving DecidableEq

/-- The `topo.Object` payload of a `CreateRequest` (`Type` is always
`Object_KIND` for this reconciler, recorded as `ObjType`). -/
structure TopoObject where
  ID : String
  ObjType : String
  Obj : TopoKind
  Attributes : List (String × String)
deriving DecidableEq

/-- The `CreateRequest` object built by `createKind`. -/
def createRequest (kind : Kind) : TopoObject :=
  { ID := kind.Name
    ObjType := "KIND"
    Obj := { Name := kind.Name, Attributes := kind.Spec.Attributes }
    Attributes := kind.Spec.Attributes }

/-- The remote registry state: the IDs currently present. -/
abbrev Registry := List String

/-- Behaviour of the remote `Get`: an injected fault wins; otherwise the
call succeeds exactly when the ID is present, and fails with `notFound`
when absent everything else unchanged. `none` means success. -/
def remoteGet (reg : Registry) (fault : Option RemoteErr) (id : String) :
    Option RemoteErr :=
  match fault with
  | some e => some e
  | none => if reg.contains id then none else some RemoteErr.notFound

/-- Behaviour of the remote `Create`: an injected fault wins; otherwise
creating an existing ID fails with `alreadyExists`, and creating an
absent ID succeeds and inserts it. -/
def remoteCreate (reg : Registry) (fault : Option RemoteErr) (id : String) :
    Option RemoteErr × Registry :=
  match fault with
  | some e => (some e, reg)
  | none =>
    if reg.contains id then (some RemoteErr.alreadyExists, reg)
    else (none, id :: reg)

/-- Behaviour of the remote `Delete`: an injected fault wins; otherwise
deleting a present ID succeeds and removes it, and deleting an absent ID
fails with `notFound`. -/
def remoteDelete (reg : Registry) (fault : Option RemoteErr) (id : String) :
    Option RemoteErr × Registry :=
  match fault with
  | some e => (some e, reg)
  | none =>
    if reg.contains id then (none, reg.filter (fun x => x ≠ id))
    else (some RemoteErr.notFound, reg)

/-- Per-invocation environment: which collaborator calls fail during
this `Reconcile` call. `fetchErr` is a non-notFound error from the
resource-store `Get`; `connectErr` is a failure of
`grpc.ConnectService` (modelled from the spec: connection acquisition
is owned by a collaborator outside `src/` and may fail); `updateErr` is
a failure of the resource-store `Update`; the three faults are injected
remote-call errors. -/
structure Env where
  fetchErr : Bool
  connectErr : Bool
  updateErr : Bool
  getFault : Option RemoteErr
  createFault : Option RemoteErr
  deleteFault : Option RemoteErr
deriving DecidableEq

/-- The fault-free environment. -/
def noFaults : Env :=
  { fetchErr := false
    connectErr := false
    updateErr := false
    getFault := none
    createFault := none
    deleteFault := none }

/-- Observable side effects of one `Reconcile` invocation, in order:
`updateResource fins` is a `client.Update` persisting the resource with
finalizer list `fins` (every `Update` in this reconciler is a
finalizer-set mutation); the other three are remote-registry calls with
the ID they carry. -/
inductive Effect
  | updateResource (fins : List String)
  | getCall (id : String)
  | createCall (id : String)
  | deleteCall (id : String)
deriving DecidableEq

/-- Is this effect a finalizer-set mutation (a `client.Update`)? -/
def Effect.isFinalizerMutation : Effect → Bool
  | Effect.updateResource _ => true
  | _ => false

/-- Is this effect a mutating remote-registry call (`Create` or
`Delete`)? -/
def Effect.isRemoteMutating : Effect → Bool
  | Effect.createCall _ => true
  | Effect.deleteCall _ => true
  | _ => false

/-- Is this effect any remote-registry call? -/
def Effect.isRemoteCall : Effect → Bool
  | Effect.getCall _ => true
  | Effect.createCall _ => true
  | Effect.deleteCall _ => true
  | _ => false

/-- Is this effect a remote `Create` call? -/
def Effect.isCreate : Effect → Bool
  | Effect.createCall _ => true
  | _ => false

/-- The ID carried by a remote-registry call, if any. -/
def Effect.remoteId : Effect → Option String
  | Effect.getCall id => some id
  | Effect.createCall id => some id
  | Effect.deleteCall id => some id
  | _ => none

/-- Outcome of a `Reconcile` call: in the Go code the `reconcile.Result`
is always empty, so the outcome is `done` when the returned error is
nil and `requeue` when it is non-nil. -/
inductive Outcome
  | done
  | requeue
deriving DecidableEq

/-- Result of one `Reconcile` invocation: the outcome, the persisted
resource-store state for this identity, the remote registry state, and
the ordered effect trace. -/
structure RecResult where
  outcome : Outcome
  resource : Option Kind
  registry : Registry
  trace : List Effect
deriving DecidableEq

/-- `kindExists` (reconciler.go:178-197): remote `Get` by
`topo.ID(kind.Name)`; success means `exists = true`; a `notFound` error
means `(false, nil)`; any other error — non-status or any status other
than not-found — is surfaced. -/
def kindExists (reg : Registry) (fault : Option RemoteErr) (kind : Kind) :
    Bool × Option RemoteErr :=
  match remoteGet reg fault (getRequestID kind) with
  | none => (true, none)
  | some err =>
    match statusFromError err with
    | none => (false, some err)
    | some e =>
      if ¬ IsNotFound e then (false, some e)
      else (false, none)

/-- `createKind` (reconciler.go:199-229): remote `Create` of the
request object; success or `alreadyExists` both return nil; any other
error — non-status or any status other than already-exists — is
surfaced. Also returns the registry state after the call. -/
def createKind (reg : Registry) (fault : Option RemoteErr) (kind : Kind) :
    Option RemoteErr × Registry :=
  match remoteCreate reg fault (createRequest kind).ID with
  | (none, reg2) => (none, reg2)
  | (some err, reg2) =>
    match statusFromError err with
    | none => (some err, reg2)
    | some e =>
      if ¬ IsAlreadyExists e then (some e, reg2)
      else (none, reg2)

/-- `deleteKind` (reconciler.go:231-251): remote `Delete` by
`topo.ID(kind.Name)`; success or `notFound` both return nil; any other
error is surfaced. Also returns the registry state after the call. -/
def deleteKind (reg : Registry) (fault : Option RemoteErr) (kind : Kind) :
    Option RemoteErr × Registry :=
  match remoteDelete reg fault (deleteRequestID kind) with
  | (none, reg2) => (none, reg2)
  | (some err, reg2) =>
    match statusFromError err with
    | none => (some err, reg2)
    | some e =>
      if ¬ IsNotFound e then (some e, reg2)
      else (none, reg2)

/-- The tail of `reconcileCreate` after the finalizer block
(reconciler.go:127-147): connect to the topology service, check
existence, create if absent. `kind` is the (possibly just finalized)
in-memory resource, `t` the effects already performed. -/
def reconcileCreateRemote (env : Env) (kind : Kind) (reg : Registry)
    (t : List Effect) : RecResult :=
  if env.connectErr then
    { outcome := Outcome.requeue, resource := some kind, registry := reg,
      trace := t }
  else
    let t1 := t ++ [Effect.getCall (getRequestID kind)]
    match kindExists reg env.getFault kind with
    | (_, some _) =>
      { outcome := Outcome.requeue, resource := some kind, registry := reg,
        trace := t1 }
    | (true, none) =>
      { outcome := Outcome.done, resource := some kind, registry := reg,
        trace := t1 }
    | (false, none) =>
      let t2 := t1 ++ [Effect.createCall (createRequest kind).ID]
      match createKind reg env.createFault kind with
      | (some _, reg2) =>
        { outcome := Outcome.requeue, resource := some kind,
          registry := reg2, trace := t2 }
      | (none, reg2) =>
        { outcome := Outcome.done, resource := some kind, registry := reg2,
          trace := t2 }

/-- `reconcileCreate` (reconciler.go:117-148): if the finalizer is
missing, add it and persist (a failed persist surfaces immediately);
then fall through to the remote existence check and create. -/
def reconcileCreate (env : Env) (kind : Kind) (reg : Registry) : RecResult :=
  if ¬ HasFinalizer kind topoFinalizer then
    let kind2 := AddFinalizer kind topoFinalizer
    let t0 := [Effect.updateResource kind2.Finalizers]
    if env.updateErr then
      { outcome := Outcome.requeue, resource := some kind, registry := reg,
        trace := t0 }
    else
      reconcileCreateRemote env kind2 reg t0
  else
    reconcileCreateRemote env kind reg []

/-- `reconcileDelete` (reconciler.go:150-176): if the finalizer is
absent, exit; otherwise connect, delete the remote entry, and only
then remove the finalizer and persist. -/
def reconcileDelete (env : Env) (kind : Kind) (reg : Registry) : RecResult :=
  if ¬ HasFinalizer kind topoFinalizer then
    { outcome := Outcome.done, resource := some kind, registry := reg,
      trace := [] }
  else if env.connectErr then
    { outcome := Outcome.requeue, resource := some kind, registry := reg,
      trace := [] }
  else
    let t1 := [Effect.deleteCall (deleteRequestID kind)]
    match deleteKind reg env.deleteFault kind with
    | (some _, reg2) =>
      { outcome := Outcome.requeue, resource := some kind, registry := reg2,
        trace := t1 }
    | (none, reg2) =>
      let kind2 := RemoveFinalizer kind topoFinalizer
      let t2 := t1 ++ [Effect.updateResource kind2.Finalizers]
      if env.updateErr then
        { outcome := Outcome.requeue, resource := some kind,
          registry := reg2, trace := t2 }
      else
        { outcome := Outcome.done, resource := some kind2, registry := reg2,
          trace := t2 }

/-- The resource-store state plus remote registry state for one
identity. -/
structure World where
  resource : Option Kind
  registry : Registry
deriving DecidableEq

/-- `Reconcile` (reconciler.go:93-115): fetch the resource (a not-found
fetch is a successful no-op, any other fetch error is surfaced), then
dispatch on the deletion timestamp. -/
def Reconcile (env : Env) (w : World) : RecResult :=
  if env.fetchErr then
    { outcome := Outcome.requeue, resource := w.resource,
      registry := w.registry, trace := [] }
  else
    match w.resource with
    | none =>
      { outcome := Outcome.done, resource := none, registry := w.registry,
        trace := [] }
    | some kind =>
      if kind.DeletionTimestamp.isNone then reconcileCreate env kind w.registry
      else reconcileDelete env kind w.registry

/-- Run `n` consecutive `Reconcile` calls under the same environment,
threading the world state; the Bool records whether every call
returned `done`. -/
def runN (env : Env) (w : World) : Nat → World × Bool
  | 0 => (w, true)
  | n + 1 =>
    let r := Reconcile env w
    let p := runN env { resource := r.resource, registry := r.registry } n
    (p.1, p.2 && decide (r.outcome = Outcome.done))

/-- The concrete resource of the spec's scenario: active, no
finalizers. -/
def r1 : Kind :=
  { Name := "r1"
    Namespace := "default"
    DeletionTimestamp := none
    Finalizers := []
    Spec := { Attributes := [] } }

/-! ## Claim theorems -/

/-- C3: for every remote existence check, a `Get` failing with
not-found yields `exists = false` with no error; a `Get` failing with
any other error kind surfaces that error, and in the reconcile loop an
active finalized resource whose `Get` fails with a non-not-found error
produces a requeue — an error is never silently treated as
`exists = false`. -/
theorem C3_get_error_classification (reg : Registry) (fault : Option RemoteErr)
    (k : Kind) :
    (remoteGet reg fault (getRequestID k) = some RemoteErr.notFound →
      kindExists reg fault k = (false, none)) ∧
    (∀ e, remoteGet reg fault (getRequestID k) = some e →
      e ≠ RemoteErr.notFound → kindExists reg fault k = (false, some e)) ∧
    (∀ env kind, env.fetchErr = false → env.connectErr = false →
      kind.DeletionTimestamp = none → HasFinalizer kind topoFinalizer = true →
      env.getFault = some RemoteErr.unknownErr →
      (Reconcile env { resource := some kind, registry := reg }).outcome =
        Outcome.requeue) := by
  refine ⟨?_, ?_, ?_⟩
  · intro h
    simp [kindExists, h, statusFromError, IsNotFound]
  · intro e h hne
    cases e <;> simp_all [kindExists, statusFromError, IsNotFound]
  · intro env kind hf hc hd hfin hg
    simp [Reconcile, hf, hd, reconcileCreate, hfin, reconcileCreateRemote, hc,
      kindExists, remoteGet, hg, statusFromError, IsNotFound]

/-- Witness for C3 at a concrete input: an injected `unknownErr` on the
`Get` of an active finalized resource yields a requeue. -/
theorem C3_get_error_classification_witness :
    (Reconcile
      { noFaults with getFault := some RemoteErr.unknownErr }
      { resource := some { r1 with Finalizers := ["topo"] },
        registry := [] }).outcome = Outcome.requeue :=
  (C3_get_error_classification [] (some RemoteErr.unknownErr) r1).2.2
    { noFaults with getFault := some RemoteErr.unknownErr }
    { r1 with Finalizers := ["topo"] }
    rfl rfl rfl (by decide) rfl

/-- C4: for every remote create, a `Create` failing with already-exists
is treated as success (no error returned); a `Create` failing with any
other error kind surfaces that error. -/
theorem C4_create_error_classification (reg : Registry)
    (fault : Option RemoteErr) (k : Kind) :
    (∀ reg2, remoteCreate reg fault (createRequest k).ID =
        (some RemoteErr.alreadyExists, reg2) →
      createKind reg fault k = (none, reg2)) ∧
    (∀ e reg2, remoteCreate reg fault (createRequest k).ID = (some e, reg2) →
      e ≠ RemoteErr.alreadyExists → createKind reg fault k = (some e, reg2)) := by
  constructor
  · intro reg2 h
    simp [createKind, h, statusFromError, IsAlreadyExists]
  · intro e reg2 h hne
    cases e <;> simp_all [createKind, statusFromError, IsAlreadyExists]

/-- Witness for C4 at a concrete input: creating an ID already present
in the registry fails remotely with already-exists yet `createKind`
returns success, and an injected `unknownErr` is surfaced. -/
theorem C4_create_error_classification_witness :
    createKind ["r1"] none r1 = (none, ["r1"]) ∧
    createKind [] (some RemoteErr.unknownErr) r1 =
      (some RemoteErr.unknownErr, []) :=
  ⟨(C4_create_error_classification ["r1"] none r1).1 ["r1"] (by decide),
   (C4_create_error_classification [] (some RemoteErr.unknownErr) r1).2
     RemoteErr.unknownErr [] (by decide) (by decide)⟩

/-- C5: for every remote delete, a `Delete` failing with not-found is
treated as success (no error returned); a `Delete` failing with any
other error kind surfaces that error. -/
theorem C5_delete_error_classification (reg : Registry)
    (fault : Option RemoteErr) (k : Kind) :
    (∀ reg2, remoteDelete reg fault (deleteRequestID k) =
        (some RemoteErr.notFound, reg2) →
      deleteKind reg fault k = (none, reg2)) ∧
    (∀ e reg2, remoteDelete reg fault (deleteRequestID k) = (some e, reg2) →
      e ≠ RemoteErr.notFound → deleteKind reg fault k = (some e, reg2)) := by
  constructor
  · intro reg2 h
    simp [deleteKind, h, statusFromError, IsNotFound]
  · intro e reg2 h hne
    cases e <;> simp_all [deleteKind, statusFromError, IsNotFound]

/-- Witness for C5 at a concrete input: deleting an absent ID fails
remotely with not-found yet `deleteKind` returns success, and an
injected `unknownErr` is surfaced. -/
theorem C5_delete_error_classification_witness :
    deleteKind [] none r1 = (none, []) ∧
    deleteKind ["r1"] (some RemoteErr.unknownErr) r1 =
      (some RemoteErr.unknownErr, ["r1"]) :=
  ⟨(C5_delete_error_classification [] none r1).1 [] (by decide),
   (C5_delete_error_classification ["r1"] (some RemoteErr.unknownErr) r1).2
     RemoteErr.unknownErr ["r1"] (by decide) (by decide)⟩

/-- C7: a resource fetch returning not-found makes `Reconcile` a
successful no-op — outcome `done`, no effects, nothing changed — while
a fetch failing with any other error is surfaced as a requeue with no
effects. -/
theorem C7_missing_resource_noop (env : Env) (w : World) :
    (env.fetchErr = false → w.resource = none →
      Reconcile env w =
        { outcome := Outcome.done, resource := none,
          registry := w.registry, trace := [] }) ∧
    (env.fetchErr = true →
      Reconcile env w =
        { outcome := Outcome.requeue, resource := w.resource,
          registry := w.registry, trace := [] }) := by
  constructor
  · intro hf hr
    simp [Reconcile, hf, hr]
  · intro hf
    simp [Reconcile, hf]

/-- Witness for C7 at a concrete input: reconciling a missing resource
returns `done` with an empty trace. -/
theorem C7_missing_resource_noop_witness :
    Reconcile noFaults { resource := none, registry := ["x"] } =
      { outcome := Outcome.done, resource := none, registry := ["x"],
        trace := [] } :=
  (C7_missing_resource_noop noFaults { resource := none, registry := ["x"] }).1
    rfl rfl

/-- C8: a resource with deletion intent set and no finalizer token is
terminal — `Reconcile` (with the snapshot successfully fetched) returns
`done`, performs no effects and changes nothing. -/
theorem C8_deleting_no_finalizer_terminal (env : Env) (k : Kind)
    (reg : Registry) (hf : env.fetchErr = false)
    (hdel : k.DeletionTimestamp.isSome = true)
    (hfin : HasFinalizer k topoFinalizer = false) :
    Reconcile env { resource := some k, registry := reg } =
      { outcome := Outcome.done, resource := some k, registry := reg,
        trace := [] } := by
  have hd : ¬ k.DeletionTimestamp.isNone := by
    simp [Option.isNone_iff_eq_none]
    intro h
    rw [h] at hdel
    simp at hdel
  simp [Reconcile, hf, hd, reconcileDelete, hfin]

/-- Witness for C8 at a concrete input. -/
theorem C8_deleting_no_finalizer_terminal_witness :
    Reconcile noFaults
      { resource := some { r1 with DeletionTimestamp := some 0 },
        registry := ["r1"] } =
      { outcome := Outcome.done,
        resource := some { r1 with DeletionTimestamp := some 0 },
        registry := ["r1"], trace := [] } :=
  C8_deleting_no_finalizer_terminal noFaults
    { r1 with DeletionTimestamp := some 0 } ["r1"] rfl (by decide) (by decide)

/-- `AddFinalizer` only touches the finalizer list. -/
theorem AddFinalizer_Name (k : Kind) (f : String) :
    (AddFinalizer k f).Name = k.Name := by
  unfold AddFinalizer
  split <;> rfl

/-- Trace shape of the remote tail of the create path: it appends to
`t` nothing, a `Get`, or a `Get` followed by a `Create`, all keyed by
the resource name. -/
theorem reconcileCreateRemote_trace (env : Env) (kind : Kind) (reg : Registry)
    (t : List Effect) :
    (reconcileCreateRemote env kind reg t).trace = t ∨
    (reconcileCreateRemote env kind reg t).trace =
      t ++ [Effect.getCall kind.Name] ∨
    (reconcileCreateRemote env kind reg t).trace =
      t ++ [Effect.getCall kind.Name, Effect.createCall kind.Name] := by
  simp only [reconcileCreateRemote]
  split
  · exact Or.inl rfl
  · split
    · right; left; simp [getRequestID]
    · right; left; simp [getRequestID]
    · split
      · right; right; simp [getRequestID, createRequest]
      · right; right; simp [getRequestID, createRequest]

/-- A surfaced fault on the remote `Delete` (any classified error other
than not-found) makes `deleteKind` return that error with the registry
unchanged. -/
theorem deleteKind_fault (reg : Registry) (e : RemoteErr) (k : Kind)
    (hne : e ≠ RemoteErr.notFound) :
    deleteKind reg (some e) k = (some e, reg) := by
  cases e <;> simp_all [deleteKind, remoteDelete, statusFromError, IsNotFound]

/-- `deleteKind` never adds registry entries. -/
theorem deleteKind_registry_subset (reg : Registry) (fault : Option RemoteErr)
    (k : Kind) (id : String) (h : id ∈ (deleteKind reg fault k).2) :
    id ∈ reg := by
  rcases fault with _ | e
  · by_cases hc : deleteRequestID k ∈ reg
    · simp [deleteKind, remoteDelete, hc, List.mem_filter] at h
      exact h.1
    · simp [deleteKind, remoteDelete, hc, statusFromError, IsNotFound] at h
      exact h
  · cases e <;>
      simp_all [deleteKind, remoteDelete, statusFromError, IsNotFound]

/-- C1 (amended): every invocation performs at most one finalizer-set
mutation and at most one mutating remote call. (The further part of
the original claim — that an add-finalizer and a remote create never
happen in the same invocation — is refuted by
the counterexample below.) -/
theorem C1_effect_bounds (env : Env) (w : World) :
    (Reconcile env w).trace.countP Effect.isFinalizerMutation ≤ 1 ∧
    (Reconcile env w).trace.countP Effect.isRemoteMutating ≤ 1 := by
  simp only [Reconcile]
  split
  · simp
  · split
    · simp
    · rename_i kind heq
      split
      · simp only [reconcileCreate]
        split
        · split
          · simp [List.countP_cons, Effect.isFinalizerMutation,
              Effect.isRemoteMutating]
          · rcases reconcileCreateRemote_trace env
                (AddFinalizer kind topoFinalizer) w.registry
                [Effect.updateResource
                  (AddFinalizer kind topoFinalizer).Finalizers] with h | h | h <;>
              simp [h, List.countP_append, List.countP_cons,
                Effect.isFinalizerMutation, Effect.isRemoteMutating]
        · rcases reconcileCreateRemote_trace env kind w.registry [] with
            h | h | h <;>
            simp [h, List.countP_append, List.countP_cons,
              Effect.isFinalizerMutation, Effect.isRemoteMutating]
      · simp only [reconcileDelete]
        split
        · simp
        · split
          · simp
          · split
            · simp [List.countP_cons, Effect.isFinalizerMutation,
                Effect.isRemoteMutating]
            · split <;>
                simp [List.countP_cons, List.countP_append,
                  Effect.isFinalizerMutation, Effect.isRemoteMutating]

/-- C1 counterexample: on the spec's own scenario — an active resource
with no finalizers, empty registry, no faults — a single `Reconcile`
performs the add-finalizer persist AND a remote `Get` AND a remote
`Create`, contradicting both "never both an add-finalizer and a remote
create in the same invocation" and the scenario's "adds the token and
makes no remote call". -/
theorem C1_add_finalizer_and_create_same_invocation :
    (Reconcile noFaults { resource := some r1, registry := [] }).trace =
      [Effect.updateResource [topoFinalizer], Effect.getCall "r1",
       Effect.createCall "r1"] ∧
    (Reconcile noFaults
        { resource := some r1, registry := [] }).trace.countP
      Effect.isFinalizerMutation = 1 ∧
    (Reconcile noFaults
        { resource := some r1, registry := [] }).trace.countP
      Effect.isCreate = 1 := by
  decide

/-- C2: on a resource with deletion intent and the finalizer token
present, the only possible effect traces are empty, a lone remote
`Delete`, or a remote `Delete` followed by the finalizer-removing
persist — so the token is removed only after the remote delete has
returned success (or not-found); and if the `Delete` surfaces an error
the outcome is requeue with the resource (finalizer set included)
unchanged. -/
theorem C2_delete_before_finalizer_removal (env : Env) (k : Kind)
    (reg : Registry) (hdel : k.DeletionTimestamp.isSome = true)
    (hfin : HasFinalizer k topoFinalizer = true) :
    ((Reconcile env { resource := some k, registry := reg }).trace = [] ∨
     (Reconcile env { resource := some k, registry := reg }).trace =
       [Effect.deleteCall k.Name] ∨
     (Reconcile env { resource := some k, registry := reg }).trace =
       [Effect.deleteCall k.Name,
        Effect.updateResource (RemoveFinalizer k topoFinalizer).Finalizers]) ∧
    (∀ e, env.deleteFault = some e → e ≠ RemoteErr.notFound →
      (Reconcile env { resource := some k, registry := reg }).outcome =
          Outcome.requeue ∧
      (Reconcile env { resource := some k, registry := reg }).resource =
          some k) := by
  have hd : ¬ k.DeletionTimestamp.isNone := by
    simp only [Option.isNone_iff_eq_none]
    intro h
    rw [h] at hdel
    simp at hdel
  by_cases hf : env.fetchErr
  · simp [Reconcile, hf]
  · simp only [Reconcile, hf, if_neg, if_false]
    simp only [Bool.false_eq_true, if_false, hd, if_neg, not_false_iff]
    simp only [reconcileDelete, hfin]
    simp only [Bool.true_eq_false, not_true, if_neg, not_false_iff,
      Bool.not_true, if_false]
    by_cases hc : env.connectErr
    · simp [hc]
    · simp only [hc, Bool.false_eq_true, if_false]
      split
      · rename_i err reg2 hdk
        constructor
        · right; left; simp [deleteRequestID]
        · intro e hfault hne
          simp
      · rename_i reg2 hdk
        constructor
        · split
          · right; right; simp [deleteRequestID]
          · right; right; simp [deleteRequestID]
        · intro e hfault hne
          rw [hfault, deleteKind_fault reg e k hne] at hdk
          simp at hdk

/-- Witness for C2 at a concrete input: an injected `unknownErr` on the
remote `Delete` of a deleting, finalized resource yields a requeue with
the resource (and its finalizer set) unchanged. -/
theorem C2_delete_before_finalizer_removal_witness :
    (Reconcile { noFaults with deleteFault := some RemoteErr.unknownErr }
        { resource :=
            some { r1 with DeletionTimestamp := some 0, Finalizers := ["topo"] },
          registry := ["r1"] }).outcome = Outcome.requeue ∧
    (Reconcile { noFaults with deleteFault := some RemoteErr.unknownErr }
        { resource :=
            some { r1 with DeletionTimestamp := some 0, Finalizers := ["topo"] },
          registry := ["r1"] }).resource =
      some { r1 with DeletionTimestamp := some 0, Finalizers := ["topo"] } :=
  (C2_delete_before_finalizer_removal
      { noFaults with deleteFault := some RemoteErr.unknownErr }
      { r1 with DeletionTimestamp := some 0, Finalizers := ["topo"] }
      ["r1"] (by decide) (by decide)).2
    RemoteErr.unknownErr rfl (by decide)

/-- C6: once the deletion intent is set, no invocation ever issues a
remote `Create`, and the remote registry never gains an entry — the
entry cannot be observed absent-then-present after deletion starts. -/
theorem C6_no_create_after_deletion_intent (env : Env) (k : Kind)
    (reg : Registry) (hdel : k.DeletionTimestamp.isSome = true) :
    (Reconcile env { resource := some k, registry := reg }).trace.countP
        Effect.isCreate = 0 ∧
    (∀ id, id ∈ (Reconcile env { resource := some k, registry := reg }).registry →
      id ∈ reg) := by
  have hd : ¬ k.DeletionTimestamp.isNone := by
    simp only [Option.isNone_iff_eq_none]
    intro h
    rw [h] at hdel
    simp at hdel
  by_cases hf : env.fetchErr
  · simp [Reconcile, hf]
  · simp only [Reconcile, hf, Bool.false_eq_true, if_false, hd, if_neg,
      not_false_iff]
    simp only [reconcileDelete]
    split
    · simp
    · split
      · simp
      · split
        · rename_i err reg2 hdk
          refine ⟨by simp [List.countP_cons, Effect.isCreate], ?_⟩
          intro id hid
          have hsub := deleteKind_registry_subset reg env.deleteFault k id
          rw [hdk] at hsub
          exact hsub hid
        · rename_i reg2 hdk
          have hsub := deleteKind_registry_subset reg env.deleteFault k
          rw [hdk] at hsub
          split
          · refine ⟨by simp [List.countP_cons, List.countP_append,
              Effect.isCreate], ?_⟩
            intro id hid
            exact hsub id hid
          · refine ⟨by simp [List.countP_cons, List.countP_append,
              Effect.isCreate], ?_⟩
            intro id hid
            exact hsub id hid

/-- Witness for C6 at a concrete input: a deleting finalized resource
whose entry is present triggers only a delete; the registry loses the
entry and gains nothing. -/
theorem C6_no_create_after_deletion_intent_witness :
    (Reconcile noFaults
        { resource :=
            some { r1 with DeletionTimestamp := some 0, Finalizers := ["topo"] },
          registry := ["r1"] }).trace.countP Effect.isCreate = 0 ∧
    ("r1" ∈ (Reconcile noFaults
        { resource :=
            some { r1 with DeletionTimestamp := some 0, Finalizers := ["topo"] },
          registry := ["r1", "r1"] }).registry →
      "r1" ∈ (["r1", "r1"] : List String)) :=
  ⟨(C6_no_create_after_deletion_intent noFaults
      { r1 with DeletionTimestamp := some 0, Finalizers := ["topo"] }
      ["r1"] (by decide)).1,
   (C6_no_create_after_deletion_intent noFaults
      { r1 with DeletionTimestamp := some 0, Finalizers := ["topo"] }
      ["r1", "r1"] (by decide)).2 "r1"⟩

/-- C10: every remote call issued by an invocation carries the
resource's name alone as the registry key; the namespace is not part of
the key, so two resources with the same name in different namespaces
build identical `Get`, `Create` and `Delete` request IDs. -/
theorem C10_registry_key_is_name_only (env : Env) (k : Kind)
    (reg : Registry) :
    (∀ e ∈ (Reconcile env { resource := some k, registry := reg }).trace,
      e.isRemoteCall = true → e.remoteId = some k.Name) ∧
    (∀ k2 : Kind, k.Name = k2.Name → k.Namespace ≠ k2.Namespace →
      getRequestID k = getRequestID k2 ∧
      deleteRequestID k = deleteRequestID k2 ∧
      (createRequest k).ID = (createRequest k2).ID) := by
  constructor
  · by_cases hf : env.fetchErr
    · simp [Reconcile, hf]
    · simp only [Reconcile, hf, Bool.false_eq_true, if_false]
      by_cases hd : k.DeletionTimestamp.isNone
      · simp only [hd, if_true]
        simp only [reconcileCreate]
        by_cases hfin : HasFinalizer k topoFinalizer
        · simp only [hfin, not_true, Bool.not_true, if_neg, not_false_iff]
          rcases reconcileCreateRemote_trace env k reg [] with h | h | h <;>
            · rw [h]
              intro e he hrc
              fin_cases he <;>
                simp_all [Effect.isRemoteCall, Effect.remoteId]
        · simp only [Bool.not_eq_true] at hfin
          simp only [hfin, Bool.false_eq_true, not_false_iff, if_true]
          by_cases hu : env.updateErr
          · simp only [hu, if_true]
            intro e he hrc
            fin_cases he <;>
              simp_all [Effect.isRemoteCall, Effect.remoteId]
          · simp only [hu, Bool.false_eq_true, if_false]
            rcases reconcileCreateRemote_trace env (AddFinalizer k topoFinalizer)
                reg [Effect.updateResource
                  (AddFinalizer k topoFinalizer).Finalizers] with h | h | h <;>
              · rw [h]
                intro e he hrc
                fin_cases he <;>
                  simp_all [Effect.isRemoteCall, Effect.remoteId,
                    AddFinalizer_Name]
      · simp only [hd, if_false, Bool.false_eq_true]
        simp only [reconcileDelete]
        by_cases hfin : HasFinalizer k topoFinalizer
        · simp only [hfin, not_true, Bool.not_true, if_neg, not_false_iff]
          by_cases hc : env.connectErr
          · simp [hc]
          · simp only [hc, Bool.false_eq_true, if_false]
            split
            · intro e he hrc
              fin_cases he <;>
                simp_all [Effect.isRemoteCall, Effect.remoteId, deleteRequestID]
            · split <;>
                · intro e he hrc
                  fin_cases he <;>
                    simp_all [Effect.isRemoteCall, Effect.remoteId,
                      deleteRequestID]
        · simp only [Bool.not_eq_true] at hfin
          simp [hfin]
  · intro k2 hname hns
    simp [getRequestID, deleteRequestID, createRequest, hname]

/-- Witness for C10 at a concrete input: the `Get` issued for an
active, finalized `r1` carries the bare name, and a same-named resource
in another namespace builds the same request IDs. -/
theorem C10_registry_key_is_name_only_witness :
    (Effect.getCall "r1").remoteId =
      some ({ r1 with Finalizers := ["topo"] } : Kind).Name ∧
    getRequestID { r1 with Finalizers := ["topo"] } =
      getRequestID { r1 with Finalizers := ["topo"], Namespace := "other" } :=
  ⟨(C10_registry_key_is_name_only noFaults { r1 with Finalizers := ["topo"] }
        ["r1"]).1 (Effect.getCall "r1") (by decide) rfl,
   ((C10_registry_key_is_name_only noFaults { r1 with Finalizers := ["topo"] }
        ["r1"]).2 { r1 with Finalizers := ["topo"], Namespace := "other" }
      rfl (by decide)).1⟩

/-- One fault-free `Reconcile` of an active resource that already holds
the finalizer token: it checks existence, creates the entry only when
absent, returns `done`, and leaves the resource unchanged. -/
theorem step_active_finalized (k : Kind) (reg : Registry)
    (hact : k.DeletionTimestamp = none)
    (hfin : HasFinalizer k topoFinalizer = true) :
    Reconcile noFaults { resource := some k, registry := reg } =
      { outcome := Outcome.done, resource := some k,
        registry := if k.Name ∈ reg then reg else k.Name :: reg,
        trace := if k.Name ∈ reg
          then [Effect.getCall k.Name]
          else [Effect.getCall k.Name, Effect.createCall k.Name] } := by
  by_cases hc : k.Name ∈ reg <;>
    simp [Reconcile, noFaults, hact, reconcileCreate, hfin,
      reconcileCreateRemote, kindExists, createKind, remoteGet, remoteCreate,
      getRequestID, createRequest, statusFromError, IsNotFound,
      IsAlreadyExists, hc]

/-- Once the entry is present, the active finalized world is a fixpoint
of fault-free reconciliation, and every call returns `done`. -/
theorem runN_active_finalized_mem (k : Kind) (reg : Registry) (n : Nat)
    (hact : k.DeletionTimestamp = none)
    (hfin : HasFinalizer k topoFinalizer = true)
    (hmem : k.Name ∈ reg) :
    runN noFaults { resource := some k, registry := reg } n =
      ({ resource := some k, registry := reg }, true) := by
  induction n with
  | zero => rfl
  | succ m ih =>
    simp only [runN, step_active_finalized k reg hact hfin]
    simp [hmem, ih]

/-- C9: any sequence of `N ≥ 1` fault-free `Reconcile` calls on an
active resource holding the finalizer token leaves exactly one remote
entry for its identity, and every call returns `done` (the initial
registry holds the identity at most once, as a registry keyed by unique
IDs does). -/
theorem C9_idempotent_creation (k : Kind) (reg : Registry) (N : Nat)
    (hact : k.DeletionTimestamp = none)
    (hfin : HasFinalizer k topoFinalizer = true)
    (hreg : reg.count k.Name ≤ 1) (hN : 1 ≤ N) :
    (runN noFaults
        { resource := some k, registry := reg } N).1.registry.count k.Name = 1 ∧
    (runN noFaults { resource := some k, registry := reg } N).2 = true := by
  obtain ⟨m, rfl⟩ : ∃ m, N = m + 1 :=
    ⟨N - 1, (Nat.succ_pred_eq_of_pos hN).symm⟩
  by_cases hmem : k.Name ∈ reg
  · have h1 : reg.count k.Name = 1 := by
      have := List.count_pos_iff.mpr hmem
      omega
    simp only [runN, step_active_finalized k reg hact hfin]
    simp only [hmem, if_true]
    rw [runN_active_finalized_mem k reg m hact hfin hmem]
    simp [h1]
  · have h0 : reg.count k.Name = 0 := List.count_eq_zero.mpr hmem
    simp only [runN, step_active_finalized k reg hact hfin]
    simp only [hmem, if_false]
    rw [runN_active_finalized_mem k (k.Name :: reg) m hact hfin
      (List.mem_cons_self _ _)]
    simp [List.count_cons_self, h0]

/-- Witness for C9 at a concrete input: three fault-free calls on the
finalized `r1` with an empty registry leave exactly one `r1` entry and
all return `done`. -/
theorem C9_idempotent_creation_witness :
    (runN noFaults
        { resource := some { r1 with Finalizers := ["topo"] },
          registry := [] } 3).1.registry.count
      ({ r1 with Finalizers := ["topo"] } : Kind).Name = 1 ∧
    (runN noFaults
        { resource := some { r1 with Finalizers := ["topo"] },
          registry := [] } 3).2 = true :=
  C9_idempotent_creation { r1 with Finalizers := ["topo"] } [] 3 rfl
    (by decide) (by decide) (by decide)
